import Mathlib

/-!
Shallow embedding of the facility-listing form logic of
`src/cumma/src/app/(auth)/sign-in/page.tsx`: the three form components
(BioAlliedLabsForm, CoworkingSpacesForm, RawSpaceLabForm) and the SignIn
redirect effect.  TypeScript numbers are modelled as `Int` (NaN is not
modelled), optional number fields as `Option Int`, and JS truthiness of an
optional number (`!!x`) as "defined and nonzero".
-/

namespace Cumma

/-- The four entries of the RENTAL_PLANS enum:
Annual, Monthly, Weekly, One Day (24 Hours). -/
inductive RentalPlan where
  | annual
  | monthly
  | weekly
  | oneDay
deriving DecidableEq, Repr

/-- The string literal of each RENTAL_PLANS entry. -/
def planString : RentalPlan → String
  | .annual => "Annual"
  | .monthly => "Monthly"
  | .weekly => "Weekly"
  | .oneDay => "One Day (24 Hours)"

/-- JS truthiness `!!x` of an optional number: defined and nonzero
(NaN, which is also falsy in JS, is outside this model). -/
def truthyNum : Option Int → Bool
  | none => false
  | some v => v != 0

/-- The price field looked up by the `switch (plan)` in the rent validation
and in the rentalPlans payload mapping: rentPerYear for Annual, rentPerMonth
for Monthly, rentPerWeek for Weekly, dayPassRent for One Day (24 Hours). -/
def priceFor (plan : RentalPlan) (rentPerYear rentPerMonth rentPerWeek dayPassRent : Option Int) :
    Option Int :=
  match plan with
  | .annual => rentPerYear
  | .monthly => rentPerMonth
  | .weekly => rentPerWeek
  | .oneDay => dayPassRent

/-- `values.selectedRentalPlans.every(plan => switch (plan) { case 'Annual':
return !!values.rentPerYear; ... })` — the rent validation shared verbatim by
all three form components. -/
def rentValidation (plans : List RentalPlan)
    (rentPerYear rentPerMonth rentPerWeek dayPassRent : Option Int) : Bool :=
  plans.all fun plan => truthyNum (priceFor plan rentPerYear rentPerMonth rentPerWeek dayPassRent)

/-- One entry of the submitted `rentalPlans` array:
`{ name: plan, price, duration: plan }`. -/
structure RentalPlanEntry where
  name : String
  price : Int
  duration : String
deriving DecidableEq, Repr

/-- `values.selectedRentalPlans.map(plan => { let price = 0; switch (plan)
{ case 'Annual': price = values.rentPerYear || 0; ... }; return { name: plan,
price, duration: plan }; })`.  `x || 0` on an optional number is `getD 0`
(undefined and 0 both give 0; NaN is outside the model). -/
def buildRentalPlans (plans : List RentalPlan)
    (rentPerYear rentPerMonth rentPerWeek dayPassRent : Option Int) : List RentalPlanEntry :=
  plans.map fun plan =>
    { name := planString plan
      price := (priceFor plan rentPerYear rentPerMonth rentPerWeek dayPassRent).getD 0
      duration := planString plan }

/-- An error recorded through `form.setError`: either `form.setError('root', ...)`
or a field-level `form.setError(fieldName, ...)`. -/
inductive SubmitError where
  | rootError (message : String)
  | fieldError (field : String) (message : String)
deriving DecidableEq, Repr

/-- Outcome of one run of a `handleFormSubmit` handler, for payload type `π`
and local-state type `σ`:
* `validationFailed err state` — an early `return` after `form.setError`;
  the submission adapter `onSubmit` was NOT invoked and the state is unchanged;
* `submitFailed payload err state` — `onSubmit(payload)` was invoked and
  rejected; the `catch` block set the root error and the state is unchanged;
* `submitted payload state` — `onSubmit(payload)` succeeded; `form.reset()`
  ran and `state` is the reset local state. -/
inductive SubmitResult (π σ : Type) where
  | validationFailed (err : SubmitError) (state : σ)
  | submitFailed (payload : π) (err : SubmitError) (state : σ)
  | submitted (payload : π) (state : σ)
deriving DecidableEq, Repr

/-- One equipment row of the BioAlliedLabs form. -/
structure Equipment where
  labName : String
  equipmentName : String
  capacityAndMake : String
deriving DecidableEq, Repr

/-- JS whitespace characters recognised by `String.prototype.trim` (the
common ones; exotic Unicode space code points are not modelled). -/
def isJsWhitespace (c : Char) : Bool :=
  c = ' ' || c = '\t' || c = '\n' || c = '\r'

/-- JS `s.trim()`: strip leading and trailing whitespace. -/
def jsTrim (s : String) : String :=
  ⟨((s.data.dropWhile isJsWhitespace).reverse.dropWhile isJsWhitespace).reverse⟩

/-- The equipment row filter of `validEquipment`: `eq.labName.trim() !== '' &&
eq.equipmentName.trim() !== '' && eq.capacityAndMake.trim() !== ''`. -/
def equipmentComplete (eq : Equipment) : Bool :=
  jsTrim eq.labName != "" && jsTrim eq.equipmentName != "" && jsTrim eq.capacityAndMake != ""

/-- The default equipment row `{ labName: '', equipmentName: '', capacityAndMake: '' }`. -/
def emptyEquipment : Equipment :=
  { labName := "", equipmentName := "", capacityAndMake := "" }

/-- The `useState` locals of BioAlliedLabsForm: `images` and `equipment`. -/
structure BioLocalState where
  images : List String
  equipment : List Equipment
deriving DecidableEq, Repr

/-- The zod-validated `values` handed to BioAlliedLabsForm's `handleFormSubmit`. -/
structure BioFormValues where
  name : String
  description : String
  images : List String
  videoLink : Option String
  selectedRentalPlans : List RentalPlan
  equipment : List Equipment
  rentPerYear : Option Int
  rentPerMonth : Option Int
  rentPerWeek : Option Int
  dayPassRent : Option Int
deriving DecidableEq, Repr

/-- The `submissionData` object of BioAlliedLabsForm (`type: 'bio-allied-labs'`). -/
structure BioPayload where
  type : String
  name : String
  description : String
  images : List String
  videoLink : String
  equipment : List Equipment
  rentalPlans : List RentalPlanEntry
  rentPerYear : Option Int
  rentPerMonth : Option Int
  rentPerWeek : Option Int
  dayPassRent : Option Int
deriving DecidableEq, Repr

/-- The `rentValidation` computed inside BioAlliedLabsForm's handler. -/
def bioRentValidation (values : BioFormValues) : Bool :=
  rentValidation values.selectedRentalPlans
    values.rentPerYear values.rentPerMonth values.rentPerWeek values.dayPassRent

/-- The `submissionData` assembled by BioAlliedLabsForm once all checks passed.
`images` is the local state (the handler spreads the `images` useState value);
`videoLink: values.videoLink || ''`. -/
def bioSubmissionData (state : BioLocalState) (values : BioFormValues) : BioPayload :=
  { type := "bio-allied-labs"
    name := values.name
    description := values.description
    images := state.images
    videoLink := values.videoLink.getD ""
    equipment := (values.equipment.filter equipmentComplete).map fun eq =>
      { labName := eq.labName
        equipmentName := eq.equipmentName
        capacityAndMake := eq.capacityAndMake }
    rentalPlans := buildRentalPlans values.selectedRentalPlans
      values.rentPerYear values.rentPerMonth values.rentPerWeek values.dayPassRent
    rentPerYear := values.rentPerYear
    rentPerMonth := values.rentPerMonth
    rentPerWeek := values.rentPerWeek
    dayPassRent := values.dayPassRent }

/-- BioAlliedLabsForm's `handleFormSubmit`, parameterised by whether the
`await onSubmit(submissionData)` call resolves (`adapterOk = true`) or rejects.
The checks appear in source order: empty images, no complete equipment row,
no selected plan, missing rent values; on success the local state is reset to
`{ images: [], equipment: [emptyEquipment] }`. -/
def bioHandleFormSubmit (adapterOk : Bool) (state : BioLocalState) (values : BioFormValues) :
    SubmitResult BioPayload BioLocalState :=
  if state.images.length = 0 then
    .validationFailed (.rootError "Please upload at least one image") state
  else
    let validEquipment := values.equipment.filter equipmentComplete
    if validEquipment.length = 0 then
      .validationFailed (.rootError "Please add at least one equipment with all fields filled") state
    else if values.selectedRentalPlans.length = 0 then
      .validationFailed (.rootError "Please select at least one rental plan") state
    else if !(bioRentValidation values) then
      .validationFailed (.rootError "Please provide rent values for all selected rental plans") state
    else if adapterOk then
      .submitted (bioSubmissionData state values) { images := [], equipment := [emptyEquipment] }
    else
      .submitFailed (bioSubmissionData state values)
        (.rootError "Failed to submit form. Please try again.") state

/-- The `useState` locals of CoworkingSpacesForm: only `images`. -/
structure CoworkingLocalState where
  images : List String
deriving DecidableEq, Repr

/-- The zod-validated `values` handed to CoworkingSpacesForm's `handleFormSubmit`. -/
structure CoworkingFormValues where
  name : String
  description : String
  images : List String
  videoLink : Option String
  selectedRentalPlans : List RentalPlan
  totalSeats : Int
  availableSeats : Int
  rentPerYear : Option Int
  rentPerMonth : Option Int
  rentPerWeek : Option Int
  dayPassRent : Option Int
deriving DecidableEq, Repr

/-- The `submissionData` object of CoworkingSpacesForm (`type: 'coworking-spaces'`). -/
structure CoworkingPayload where
  type : String
  name : String
  description : String
  images : List String
  videoLink : String
  totalSeats : Int
  availableSeats : Int
  rentalPlans : List RentalPlanEntry
deriving DecidableEq, Repr

/-- The `rentValidation` computed inside CoworkingSpacesForm's handler. -/
def coworkingRentValidation (values : CoworkingFormValues) : Bool :=
  rentValidation values.selectedRentalPlans
    values.rentPerYear values.rentPerMonth values.rentPerWeek values.dayPassRent

/-- The `submissionData` assembled by CoworkingSpacesForm once all checks
passed (`Number(...)` on a number is the identity). -/
def coworkingSubmissionData (state : CoworkingLocalState) (values : CoworkingFormValues) :
    CoworkingPayload :=
  { type := "coworking-spaces"
    name := values.name
    description := values.description
    images := state.images
    videoLink := values.videoLink.getD ""
    totalSeats := values.totalSeats
    availableSeats := values.availableSeats
    rentalPlans := buildRentalPlans values.selectedRentalPlans
      values.rentPerYear values.rentPerMonth values.rentPerWeek values.dayPassRent }

/-- CoworkingSpacesForm's `handleFormSubmit`, parameterised by whether the
`await onSubmit(submissionData)` call resolves.  The checks appear in source
order: empty images, no selected plan, missing rent values, `totalSeats <= 0`
(field error on totalSeats), `availableSeats > totalSeats` (field error on
availableSeats); on success the local state is reset to `{ images: [] }`. -/
def coworkingHandleFormSubmit (adapterOk : Bool) (state : CoworkingLocalState)
    (values : CoworkingFormValues) : SubmitResult CoworkingPayload CoworkingLocalState :=
  if state.images.length = 0 then
    .validationFailed (.rootError "Please upload at least one image") state
  else if values.selectedRentalPlans.length = 0 then
    .validationFailed (.rootError "Please select at least one rental plan") state
  else if !(coworkingRentValidation values) then
    .validationFailed (.rootError "Please provide rent values for all selected rental plans") state
  else if values.totalSeats ≤ 0 then
    .validationFailed (.fieldError "totalSeats" "Total seats must be greater than 0") state
  else if values.availableSeats > values.totalSeats then
    .validationFailed (.fieldError "availableSeats" "Available seats cannot exceed total seats") state
  else if adapterOk then
    .submitted (coworkingSubmissionData state values) { images := [] }
  else
    .submitFailed (coworkingSubmissionData state values)
      (.rootError "Failed to submit form. Please try again.") state

/-- The `type` enum of an area-detail row: Covered or Uncovered. -/
inductive AreaType where
  | covered
  | uncovered
deriving DecidableEq, Repr

/-- The `furnishing` enum of an area-detail row. -/
inductive Furnishing where
  | furnished
  | notFurnished
deriving DecidableEq, Repr

/-- The `customisation` enum of an area-detail row. -/
inductive Customisation where
  | openToCustomisation
  | cannotBeCustomised
deriving DecidableEq, Repr

/-- One area-detail row of the RawSpaceLab form. -/
structure AreaDetail where
  area : Int
  type : AreaType
  furnishing : Furnishing
  customisation : Customisation
deriving DecidableEq, Repr

/-- The area-detail filter of `validAreaDetails`: `area.area > 0 && area.type
&& area.furnishing && area.customisation`.  The last three conjuncts test JS
truthiness of enum strings, which are always non-empty for well-typed values,
so only the `area > 0` test remains. -/
def areaComplete (a : AreaDetail) : Bool :=
  a.area > 0

/-- The default area-detail row `{ area: 0, type: 'Covered',
furnishing: 'Not Furnished', customisation: 'Open to Customisation' }`. -/
def emptyAreaDetail : AreaDetail :=
  { area := 0, type := .covered, furnishing := .notFurnished,
    customisation := .openToCustomisation }

/-- The `useState` locals of RawSpaceLabForm: `images` and `areaDetails`. -/
structure RawLocalState where
  images : List String
  areaDetails : List AreaDetail
deriving DecidableEq, Repr

/-- The zod-validated `values` handed to RawSpaceLabForm's `handleFormSubmit`. -/
structure RawFormValues where
  name : String
  description : String
  images : List String
  videoLink : Option String
  selectedRentalPlans : List RentalPlan
  areaDetails : List AreaDetail
  rentPerYear : Option Int
  rentPerMonth : Option Int
  rentPerWeek : Option Int
  dayPassRent : Option Int
deriving DecidableEq, Repr

/-- The `submissionData` object of RawSpaceLabForm (`type: 'raw-space-lab'`). -/
structure RawPayload where
  type : String
  name : String
  description : String
  images : List String
  videoLink : String
  areaDetails : List AreaDetail
  rentalPlans : List RentalPlanEntry
deriving DecidableEq, Repr

/-- The `rentValidation` computed inside RawSpaceLabForm's handler. -/
def rawRentValidation (values : RawFormValues) : Bool :=
  rentValidation values.selectedRentalPlans
    values.rentPerYear values.rentPerMonth values.rentPerWeek values.dayPassRent

/-- The `submissionData` assembled by RawSpaceLabForm once all checks passed
(`Number(area.area)` on a number is the identity). -/
def rawSubmissionData (state : RawLocalState) (values : RawFormValues) : RawPayload :=
  { type := "raw-space-lab"
    name := values.name
    description := values.description
    images := state.images
    videoLink := values.videoLink.getD ""
    areaDetails := (values.areaDetails.filter areaComplete).map fun a =>
      { area := a.area
        type := a.type
        furnishing := a.furnishing
        customisation := a.customisation }
    rentalPlans := buildRentalPlans values.selectedRentalPlans
      values.rentPerYear values.rentPerMonth values.rentPerWeek values.dayPassRent }

/-- RawSpaceLabForm's `handleFormSubmit`, parameterised by whether the
`await onSubmit(submissionData)` call resolves.  The checks appear in source
order: empty images, no complete area-detail row, no selected plan, missing
rent values; on success the local state is reset to
`{ images: [], areaDetails: [emptyAreaDetail] }`. -/
def rawHandleFormSubmit (adapterOk : Bool) (state : RawLocalState) (values : RawFormValues) :
    SubmitResult RawPayload RawLocalState :=
  if state.images.length = 0 then
    .validationFailed (.rootError "Please upload at least one image") state
  else
    let validAreaDetails := values.areaDetails.filter areaComplete
    if validAreaDetails.length = 0 then
      .validationFailed (.rootError "Please add at least one area detail with all fields filled") state
    else if values.selectedRentalPlans.length = 0 then
      .validationFailed (.rootError "Please select at least one rental plan") state
    else if !(rawRentValidation values) then
      .validationFailed (.rootError "Please provide rent values for all selected rental plans") state
    else if adapterOk then
      .submitted (rawSubmissionData state values) { images := [], areaDetails := [emptyAreaDetail] }
    else
      .submitFailed (rawSubmissionData state values)
        (.rootError "Failed to submit form. Please try again.") state

/-- The slice of form state touched by a rental-plan checkbox's
`onCheckedChange` handler: the `selectedRentalPlans` field value and the four
price fields. -/
structure PlanPriceState where
  selectedRentalPlans : List RentalPlan
  rentPerYear : Option Int
  rentPerMonth : Option Int
  rentPerWeek : Option Int
  dayPassRent : Option Int
deriving DecidableEq, Repr

/-- Read the price field of `s` named by `plan`. -/
def priceOf (plan : RentalPlan) (s : PlanPriceState) : Option Int :=
  priceFor plan s.rentPerYear s.rentPerMonth s.rentPerWeek s.dayPassRent

/-- BioAlliedLabsForm's rental-plan checkbox `onCheckedChange`:
`checked ? field.onChange([...value, plan]) : field.onChange(value.filter(p =>
p !== plan))`.  It only rewrites `selectedRentalPlans`; no price field is
touched. -/
def bioPlanCheckboxChange (checked : Bool) (plan : RentalPlan) (s : PlanPriceState) :
    PlanPriceState :=
  if checked then
    { s with selectedRentalPlans := s.selectedRentalPlans ++ [plan] }
  else
    { s with selectedRentalPlans := s.selectedRentalPlans.filter fun p => p != plan }

/-- The `if (!checked) switch (plan) { case 'Annual':
form.setValue('rentPerYear', undefined); ... }` clearing step of the
CoworkingSpacesForm and RawSpaceLabForm checkbox handlers. -/
def clearPrice (plan : RentalPlan) (s : PlanPriceState) : PlanPriceState :=
  match plan with
  | .annual => { s with rentPerYear := none }
  | .monthly => { s with rentPerMonth := none }
  | .weekly => { s with rentPerWeek := none }
  | .oneDay => { s with dayPassRent := none }

/-- The rental-plan checkbox `onCheckedChange` shared (verbatim-identical code)
by CoworkingSpacesForm and RawSpaceLabForm: update `selectedRentalPlans`
(`checked ? [...field.value, plan] : field.value.filter(p => p !== plan)`)
and, when unchecking, set that plan's price field to undefined. -/
def clearingPlanCheckboxChange (checked : Bool) (plan : RentalPlan) (s : PlanPriceState) :
    PlanPriceState :=
  let s1 :=
    if checked then
      { s with selectedRentalPlans := s.selectedRentalPlans ++ [plan] }
    else
      { s with selectedRentalPlans := s.selectedRentalPlans.filter fun p => p != plan }
  if checked then s1 else clearPrice plan s1

/-- JS `Array.prototype.filter` with an index-based predicate, carried out
with an explicit running index (the index is compared as a mathematical
integer so that out-of-range and negative arguments behave as in JS). -/
def jsFilterIdx {α : Type} (p : Int → Bool) : List α → Nat → List α
  | [], _ => []
  | a :: l, i => if p i then a :: jsFilterIdx p l (i + 1) else jsFilterIdx p l (i + 1)

/-- `list.filter((_, i) => i !== index)` — the operation applied by
`removeEquipment` and `removeAreaDetail` to both the local list and the
schema-bound form array. -/
def removeAtIndex {α : Type} (l : List α) (index : Int) : List α :=
  jsFilterIdx (fun i => i != index) l 0

/-- BioAlliedLabsForm's `removeEquipment(index)`: filter index `index` out of
the local `equipment` useState list and out of the form's `equipment` array. -/
def removeEquipment (index : Int) (state : BioLocalState) (formEquipment : List Equipment) :
    BioLocalState × List Equipment :=
  ({ state with equipment := removeAtIndex state.equipment index },
   removeAtIndex formEquipment index)

/-- RawSpaceLabForm's `removeAreaDetail(index)`: filter index `index` out of
the local `areaDetails` useState list and out of the form's `areaDetails`
array. -/
def removeAreaDetail (index : Int) (state : RawLocalState) (formAreaDetails : List AreaDetail) :
    RawLocalState × List AreaDetail :=
  ({ state with areaDetails := removeAtIndex state.areaDetails index },
   removeAtIndex formAreaDetails index)

/-- `useSession().status` of the SignIn page. -/
inductive SessionStatus where
  | authenticated
  | unauthenticated
  | loading
deriving DecidableEq, Repr

/-- The `session.user` object, keeping only the `userType` field the redirect
effect reads. -/
structure SessionUser where
  userType : String
deriving DecidableEq, Repr

/-- The SignIn redirect effect: when `status === "authenticated" &&
session?.user`, push `from || (session.user.userType === "startup" ?
"/startup/dashboard" : "/service-provider/dashboard")`; otherwise do nothing
(`none`).  `fromParam` is `searchParams.get("from") || ""`. -/
def signInRedirect (status : SessionStatus) (user : Option SessionUser) (fromParam : String) :
    Option String :=
  match status, user with
  | .authenticated, some u =>
      some (if fromParam != "" then fromParam
            else if u.userType = "startup" then "/startup/dashboard"
            else "/service-provider/dashboard")
  | _, _ => none

/-- A complete equipment row used as concrete test data. -/
def sampleEquipmentRow : Equipment :=
  { labName := "L1", equipmentName := "E1", capacityAndMake := "C1" }

/-- Concrete BioAlliedLabs local state with one image and one equipment row. -/
def sampleBioState : BioLocalState :=
  { images := ["u1"], equipment := [sampleEquipmentRow] }

/-- Concrete BioAlliedLabs form values: the "Lab A" draft of the spec's
end-to-end property (unspecified fields take neutral values). -/
def sampleBioValues : BioFormValues :=
  { name := "Lab A", description := "d", images := ["u1"], videoLink := none,
    selectedRentalPlans := [.monthly], equipment := [sampleEquipmentRow],
    rentPerYear := none, rentPerMonth := some 5000,
    rentPerWeek := none, dayPassRent := none }

/-- Concrete CoworkingSpaces local state. -/
def sampleCoworkingState : CoworkingLocalState :=
  { images := ["u1"] }

/-- Concrete CoworkingSpaces form values that pass every submit-time check. -/
def sampleCoworkingValues : CoworkingFormValues :=
  { name := "Hub", description := "d", images := ["u1"], videoLink := none,
    selectedRentalPlans := [.monthly], totalSeats := 10, availableSeats := 5,
    rentPerYear := none, rentPerMonth := some 5000,
    rentPerWeek := none, dayPassRent := none }

/-- A complete area-detail row used as concrete test data. -/
def sampleAreaRow : AreaDetail :=
  { area := 100, type := .covered, furnishing := .furnished,
    customisation := .openToCustomisation }

/-- Concrete RawSpaceLab local state. -/
def sampleRawState : RawLocalState :=
  { images := ["u1"], areaDetails := [sampleAreaRow] }

/-- Concrete RawSpaceLab form values that pass every submit-time check. -/
def sampleRawValues : RawFormValues :=
  { name := "Raw", description := "d", images := ["u1"], videoLink := none,
    selectedRentalPlans := [.monthly], areaDetails := [sampleAreaRow],
    rentPerYear := none, rentPerMonth := some 5000,
    rentPerWeek := none, dayPassRent := none }

/-- Concrete checkbox-handler state: Monthly selected, annual and monthly
prices set. -/
def samplePlanState : PlanPriceState :=
  { selectedRentalPlans := [.monthly], rentPerYear := some 100,
    rentPerMonth := some 5000, rentPerWeek := none, dayPassRent := none }

/-- The "Lab A" draft with the monthly rent replaced by a negative number. -/
def negativeRentValues : BioFormValues :=
  { sampleBioValues with rentPerMonth := some (-5) }

/-! ### Helper lemmas about index-based removal -/

theorem jsFilterIdx_keep_all {α : Type} (index : Int) (l : List α) (n : Nat)
    (h : index < (n : Int) ∨ (n : Int) + l.length ≤ index) :
    jsFilterIdx (fun i => i != index) l n = l := by
  induction l generalizing n with
  | nil => rfl
  | cons a t ih =>
    have h1 : ((n : Int) != index) = true := by
      rw [bne_iff_ne]
      simp only [List.length_cons] at h
      push_cast at h
      omega
    have h2 : index < ((n + 1 : Nat) : Int) ∨ ((n + 1 : Nat) : Int) + t.length ≤ index := by
      simp only [List.length_cons] at h
      push_cast at h ⊢
      omega
    simp only [jsFilterIdx, h1, if_true, ih (n + 1) h2]

theorem jsFilterIdx_remove_at {α : Type} (l : List α) (n i : Nat) (h : i < l.length) :
    jsFilterIdx (fun k => k != ((n + i : Nat) : Int)) l n = l.take i ++ l.drop (i + 1) := by
  induction l generalizing n i with
  | nil => simp at h
  | cons a t ih =>
    cases i with
    | zero =>
      have h1 : ((n : Int) != ((n + 0 : Nat) : Int)) = false := by
        simp
      have h2 : jsFilterIdx (fun k => k != ((n + 0 : Nat) : Int)) t (n + 1) = t := by
        apply jsFilterIdx_keep_all
        push_cast
        omega
      simp only [jsFilterIdx, h1, if_false, Bool.false_eq_true, List.take_zero, List.nil_append,
        List.drop_succ_cons, List.drop_zero]
      exact h2
    | succ j =>
      have harg : (fun k : Int => k != ((n + (j + 1) : Nat) : Int)) =
          (fun k : Int => k != (((n + 1) + j : Nat) : Int)) := by
        have hc : ((n + (j + 1) : Nat) : Int) = (((n + 1) + j : Nat) : Int) := by
          push_cast
          omega
        rw [hc]
      have h1 : ((n : Int) != (((n + 1) + j : Nat) : Int)) = true := by
        rw [bne_iff_ne]
        push_cast
        omega
      have hj : j < t.length := by
        simp only [List.length_cons] at h
        omega
      rw [harg]
      simp only [jsFilterIdx, h1, if_true, List.take_succ_cons, List.drop_succ_cons,
        List.cons_append]
      rw [ih (n + 1) j hj]

theorem removeAtIndex_in_range {α : Type} (l : List α) (i : Nat) (h : i < l.length) :
    removeAtIndex l (i : Int) = l.take i ++ l.drop (i + 1) := by
  have := jsFilterIdx_remove_at l 0 i h
  simpa [removeAtIndex] using this

theorem removeAtIndex_out_of_range {α : Type} (l : List α) (index : Int)
    (h : index < 0 ∨ (l.length : Int) ≤ index) :
    removeAtIndex l index = l := by
  apply jsFilterIdx_keep_all
  push_cast
  omega

theorem removeAtIndex_length {α : Type} (l : List α) (i : Nat) (h : i < l.length) :
    (removeAtIndex l (i : Int)).length = l.length - 1 := by
  rw [removeAtIndex_in_range l i h]
  simp only [List.length_append, List.length_take, List.length_drop]
  omega

/-! ### Claim theorems -/

/-- C1 counterexample: the "Lab A" draft with `rentPerMonth = -5` — a value
that is NOT a positive number — sails through the rent validation (`!!(-5)` is
truthy in JS), so the handler does not raise the missing-rent root error and
does invoke the submission adapter, contradicting the claim as stated. -/
theorem negative_rent_passes_validation :
    negativeRentValues.rentPerMonth = some (-5) ∧
    RentalPlan.monthly ∈ negativeRentValues.selectedRentalPlans ∧
    bioHandleFormSubmit true sampleBioState negativeRentValues =
      .submitted (bioSubmissionData sampleBioState negativeRentValues)
        { images := [], equipment := [emptyEquipment] } := by
  decide

/-- C1 (amended): for drafts that pass the earlier checks, if some selected
plan's corresponding price field is absent or zero (JS-falsy), the submit
handler fails with the missing-rent root error and does not invoke the
submission adapter — for both the BioAlliedLabs and CoworkingSpaces forms. -/
theorem missing_rent_blocks_submit
    (ok : Bool) (sb : BioLocalState) (vb : BioFormValues) (pb : RentalPlan)
    (sc : CoworkingLocalState) (vc : CoworkingFormValues) (pc : RentalPlan)
    (hbImg : sb.images ≠ [])
    (hbEq : vb.equipment.filter equipmentComplete ≠ [])
    (hbMem : pb ∈ vb.selectedRentalPlans)
    (hbRent : truthyNum
      (priceFor pb vb.rentPerYear vb.rentPerMonth vb.rentPerWeek vb.dayPassRent) = false)
    (hcImg : sc.images ≠ [])
    (hcMem : pc ∈ vc.selectedRentalPlans)
    (hcRent : truthyNum
      (priceFor pc vc.rentPerYear vc.rentPerMonth vc.rentPerWeek vc.dayPassRent) = false) :
    bioHandleFormSubmit ok sb vb =
      .validationFailed
        (.rootError "Please provide rent values for all selected rental plans") sb ∧
    coworkingHandleFormSubmit ok sc vc =
      .validationFailed
        (.rootError "Please provide rent values for all selected rental plans") sc := by
  have hbv : bioRentValidation vb = false := by
    cases hall : bioRentValidation vb with
    | false => rfl
    | true =>
      exfalso
      unfold bioRentValidation rentValidation at hall
      rw [List.all_eq_true] at hall
      have hx := hall pb hbMem
      rw [hbRent] at hx
      exact Bool.false_ne_true hx
  have hcv : coworkingRentValidation vc = false := by
    cases hall : coworkingRentValidation vc with
    | false => rfl
    | true =>
      exfalso
      unfold coworkingRentValidation rentValidation at hall
      rw [List.all_eq_true] at hall
      have hx := hall pc hcMem
      rw [hcRent] at hx
      exact Bool.false_ne_true hx
  have h1 : ¬ sb.images.length = 0 := by
    simpa [List.length_eq_zero] using hbImg
  have h2 : ¬ (vb.equipment.filter equipmentComplete).length = 0 := by
    simpa [List.length_eq_zero] using hbEq
  have h3 : ¬ vb.selectedRentalPlans.length = 0 := by
    simpa [List.length_eq_zero] using List.ne_nil_of_mem hbMem
  have h4 : ¬ sc.images.length = 0 := by
    simpa [List.length_eq_zero] using hcImg
  have h5 : ¬ vc.selectedRentalPlans.length = 0 := by
    simpa [List.length_eq_zero] using List.ne_nil_of_mem hcMem
  constructor
  · simp [bioHandleFormSubmit, h1, h2, h3, hbv]
  · simp [coworkingHandleFormSubmit, h4, h5, hcv]

/-- C1 witness: a concrete draft (Monthly selected, `rentPerMonth` absent)
rejected with the missing-rent root error by both handlers. -/
theorem missing_rent_blocks_submit_witness :
    bioHandleFormSubmit true sampleBioState
        { sampleBioValues with rentPerMonth := none } =
      .validationFailed
        (.rootError "Please provide rent values for all selected rental plans")
        sampleBioState ∧
    coworkingHandleFormSubmit true sampleCoworkingState
        { sampleCoworkingValues with rentPerMonth := none } =
      .validationFailed
        (.rootError "Please provide rent values for all selected rental plans")
        sampleCoworkingState := by
  exact missing_rent_blocks_submit true sampleBioState
    { sampleBioValues with rentPerMonth := none } .monthly
    sampleCoworkingState { sampleCoworkingValues with rentPerMonth := none } .monthly
    (by decide) (by decide) (by decide) (by decide) (by decide) (by decide) (by decide)

/-- C2 counterexample: in the BioAlliedLabs form, unchecking the Monthly plan
leaves `rentPerMonth` untouched (still 5000), so the claim that every form
clears the deselected plan's price field is false. -/
theorem bio_uncheck_keeps_price :
    (bioPlanCheckboxChange false .monthly
      { selectedRentalPlans := [.monthly], rentPerYear := none,
        rentPerMonth := some 5000, rentPerWeek := none, dayPassRent := none }).rentPerMonth ≠
      none := by
  decide

/-- C2 (amended): unchecking a rental-plan checkbox removes that plan from
`selectedRentalPlans` in every form; the CoworkingSpaces and RawSpaceLab
handlers additionally set that plan's price field to undefined and leave the
other price fields unchanged, while the BioAlliedLabs handler leaves all four
price fields unchanged. -/
theorem uncheck_plan_behavior (plan : RentalPlan) (s : PlanPriceState) :
    ((bioPlanCheckboxChange false plan s).selectedRentalPlans =
        s.selectedRentalPlans.filter (fun p => p != plan) ∧
      (bioPlanCheckboxChange false plan s).rentPerYear = s.rentPerYear ∧
      (bioPlanCheckboxChange false plan s).rentPerMonth = s.rentPerMonth ∧
      (bioPlanCheckboxChange false plan s).rentPerWeek = s.rentPerWeek ∧
      (bioPlanCheckboxChange false plan s).dayPassRent = s.dayPassRent) ∧
    ((clearingPlanCheckboxChange false plan s).selectedRentalPlans =
        s.selectedRentalPlans.filter (fun p => p != plan) ∧
      priceOf plan (clearingPlanCheckboxChange false plan s) = none ∧
      ∀ q : RentalPlan, q ≠ plan →
        priceOf q (clearingPlanCheckboxChange false plan s) = priceOf q s) := by
  constructor
  · cases plan <;>
      simp [bioPlanCheckboxChange, clearingPlanCheckboxChange, clearPrice, priceOf, priceFor]
  refine ⟨?_, ?_, ?_⟩
  · cases plan <;>
      simp [bioPlanCheckboxChange, clearingPlanCheckboxChange, clearPrice, priceOf, priceFor]
  · cases plan <;>
      simp [bioPlanCheckboxChange, clearingPlanCheckboxChange, clearPrice, priceOf, priceFor]
  · cases plan <;>
      · rintro (_ | _ | _ | _) hq <;>
          simp_all [bioPlanCheckboxChange, clearingPlanCheckboxChange, clearPrice,
            priceOf, priceFor]

/-- C2 witness: unchecking Monthly in the clearing (CoworkingSpaces /
RawSpaceLab) handler on a concrete state removes the plan, clears
`rentPerMonth`, and keeps `rentPerYear`. -/
theorem uncheck_plan_behavior_witness :
    (clearingPlanCheckboxChange false .monthly samplePlanState).selectedRentalPlans = [] ∧
    priceOf .monthly (clearingPlanCheckboxChange false .monthly samplePlanState) = none ∧
    priceOf .annual (clearingPlanCheckboxChange false .monthly samplePlanState) = some 100 := by
  obtain ⟨_, hsel, hclr, hoth⟩ := uncheck_plan_behavior .monthly samplePlanState
  refine ⟨?_, hclr, ?_⟩
  · simpa [samplePlanState] using hsel
  · have := hoth .annual (by decide)
    simpa [samplePlanState, priceOf, priceFor] using this

/-- C3: for every form, an empty local `images` list makes the submit handler
set the root error "Please upload at least one image" and return without
invoking the submission adapter — for arbitrary form values, so this check
precedes every other submit-time validation. -/
theorem empty_images_blocks_submit
    (ok : Bool) (sb : BioLocalState) (vb : BioFormValues)
    (sc : CoworkingLocalState) (vc : CoworkingFormValues)
    (sr : RawLocalState) (vr : RawFormValues)
    (hb : sb.images = []) (hc : sc.images = []) (hr : sr.images = []) :
    bioHandleFormSubmit ok sb vb =
      .validationFailed (.rootError "Please upload at least one image") sb ∧
    coworkingHandleFormSubmit ok sc vc =
      .validationFailed (.rootError "Please upload at least one image") sc ∧
    rawHandleFormSubmit ok sr vr =
      .validationFailed (.rootError "Please upload at least one image") sr := by
  refine ⟨?_, ?_, ?_⟩
  · simp [bioHandleFormSubmit, hb]
  · simp [coworkingHandleFormSubmit, hc]
  · simp [rawHandleFormSubmit, hr]

/-- C3 witness: with no image uploaded, all three handlers reject with the
upload-an-image root error even on otherwise valid drafts. -/
theorem empty_images_blocks_submit_witness :
    bioHandleFormSubmit true { images := [], equipment := [sampleEquipmentRow] }
        sampleBioValues =
      .validationFailed (.rootError "Please upload at least one image")
        { images := [], equipment := [sampleEquipmentRow] } ∧
    coworkingHandleFormSubmit true { images := [] } sampleCoworkingValues =
      .validationFailed (.rootError "Please upload at least one image") { images := [] } ∧
    rawHandleFormSubmit true { images := [], areaDetails := [sampleAreaRow] } sampleRawValues =
      .validationFailed (.rootError "Please upload at least one image")
        { images := [], areaDetails := [sampleAreaRow] } := by
  exact empty_images_blocks_submit true
    { images := [], equipment := [sampleEquipmentRow] } sampleBioValues
    { images := [] } sampleCoworkingValues
    { images := [], areaDetails := [sampleAreaRow] } sampleRawValues
    rfl rfl rfl

/-- C4: for an in-range index, `removeEquipment` / `removeAreaDetail` delete
exactly the record at that index — the result is the prefix before it followed
by the suffix after it, of length N−1 — and apply the same removal to the
local useState list and the schema-bound form array. -/
theorem remove_in_range_shifts_down
    (sb : BioLocalState) (fe : List Equipment) (i : Nat)
    (sr : RawLocalState) (fa : List AreaDetail) (j : Nat)
    (hbe : sb.equipment = fe) (hib : i < fe.length)
    (hra : sr.areaDetails = fa) (hjr : j < fa.length) :
    ((removeEquipment (i : Int) sb fe).1.equipment = fe.take i ++ fe.drop (i + 1) ∧
      (removeEquipment (i : Int) sb fe).2 = fe.take i ++ fe.drop (i + 1) ∧
      (removeEquipment (i : Int) sb fe).1.equipment.length = fe.length - 1) ∧
    ((removeAreaDetail (j : Int) sr fa).1.areaDetails = fa.take j ++ fa.drop (j + 1) ∧
      (removeAreaDetail (j : Int) sr fa).2 = fa.take j ++ fa.drop (j + 1) ∧
      (removeAreaDetail (j : Int) sr fa).1.areaDetails.length = fa.length - 1) := by
  refine ⟨⟨?_, ?_, ?_⟩, ?_, ?_, ?_⟩
  · simpa [removeEquipment, hbe] using removeAtIndex_in_range fe i hib
  · simpa [removeEquipment] using removeAtIndex_in_range fe i hib
  · simpa [removeEquipment, hbe] using removeAtIndex_length fe i hib
  · simpa [removeAreaDetail, hra] using removeAtIndex_in_range fa j hjr
  · simpa [removeAreaDetail] using removeAtIndex_in_range fa j hjr
  · simpa [removeAreaDetail, hra] using removeAtIndex_length fa j hjr

/-- C4 witness: removing index 1 from a concrete two-row list drops the
second row from both the local list and the form array. -/
theorem remove_in_range_shifts_down_witness :
    (removeEquipment ((1 : Nat) : Int)
        { images := [], equipment := [sampleEquipmentRow, emptyEquipment] }
        [sampleEquipmentRow, emptyEquipment]).1.equipment = [sampleEquipmentRow] ∧
    (removeAreaDetail ((0 : Nat) : Int)
        { images := [], areaDetails := [sampleAreaRow, emptyAreaDetail] }
        [sampleAreaRow, emptyAreaDetail]).2 = [emptyAreaDetail] := by
  obtain ⟨⟨h1, _, _⟩, _, h2, _⟩ := remove_in_range_shifts_down
    { images := [], equipment := [sampleEquipmentRow, emptyEquipment] }
    [sampleEquipmentRow, emptyEquipment] 1
    { images := [], areaDetails := [sampleAreaRow, emptyAreaDetail] }
    [sampleAreaRow, emptyAreaDetail] 0
    rfl (by decide) rfl (by decide)
  exact ⟨by simpa using h1, by simpa using h2⟩

/-- C5: submitting the concrete "Lab A" BioAlliedLabs draft succeeds, its
payload's `rentalPlans` equals `[{name: 'Monthly', price: 5000, duration:
'Monthly'}]`, and afterwards the local state is reset (images cleared,
equipment back to one blank row, form reset). -/
theorem bio_end_to_end_submit :
    bioHandleFormSubmit true sampleBioState sampleBioValues =
      .submitted
        { type := "bio-allied-labs", name := "Lab A", description := "d",
          images := ["u1"], videoLink := "",
          equipment := [sampleEquipmentRow],
          rentalPlans := [{ name := "Monthly", price := 5000, duration := "Monthly" }],
          rentPerYear := none, rentPerMonth := some 5000,
          rentPerWeek := none, dayPassRent := none }
        { images := [], equipment := [emptyEquipment] } := by
  decide

/-- C6: a coworking draft that passes the earlier checks but has
`availableSeats > totalSeats` is rejected with the field-level error on
`availableSeats`, and the submission adapter is not invoked. -/
theorem available_exceeds_total_blocks_submit
    (ok : Bool) (sc : CoworkingLocalState) (vc : CoworkingFormValues)
    (hImg : sc.images ≠ [])
    (hPlans : vc.selectedRentalPlans ≠ [])
    (hRent : coworkingRentValidation vc = true)
    (hTotal : 0 < vc.totalSeats)
    (hSeats : vc.totalSeats < vc.availableSeats) :
    coworkingHandleFormSubmit ok sc vc =
      .validationFailed
        (.fieldError "availableSeats" "Available seats cannot exceed total seats") sc := by
  have h1 : ¬ sc.images.length = 0 := by
    simpa [List.length_eq_zero] using hImg
  have h2 : ¬ vc.selectedRentalPlans.length = 0 := by
    simpa [List.length_eq_zero] using hPlans
  have h3 : ¬ vc.totalSeats ≤ 0 := by omega
  have h4 : vc.availableSeats > vc.totalSeats := hSeats
  simp [coworkingHandleFormSubmit, h1, h2, h3, h4, hRent]

/-- C6 witness: a concrete coworking draft with 10 total seats and 20
available seats fails with the availableSeats field error. -/
theorem available_exceeds_total_blocks_submit_witness :
    coworkingHandleFormSubmit true sampleCoworkingState
        { sampleCoworkingValues with availableSeats := 20 } =
      .validationFailed
        (.fieldError "availableSeats" "Available seats cannot exceed total seats")
        sampleCoworkingState := by
  exact available_exceeds_total_blocks_submit true sampleCoworkingState
    { sampleCoworkingValues with availableSeats := 20 }
    (by decide) (by decide) (by decide) (by decide) (by decide)

/-- C7: the assembled payload's repeatable-record array is exactly the input
records whose every sub-field is non-blank (equipment: all three strings
non-empty after trim; area details: area > 0, the enum fields being always
set), in their original relative order, and each payload carries its
listing-type discriminator. -/
theorem payload_filters_incomplete_records
    (sb : BioLocalState) (vb : BioFormValues)
    (sr : RawLocalState) (vr : RawFormValues)
    (sc : CoworkingLocalState) (vc : CoworkingFormValues) :
    (bioSubmissionData sb vb).equipment = vb.equipment.filter equipmentComplete ∧
    (bioSubmissionData sb vb).type = "bio-allied-labs" ∧
    (rawSubmissionData sr vr).areaDetails = vr.areaDetails.filter areaComplete ∧
    (rawSubmissionData sr vr).type = "raw-space-lab" ∧
    (coworkingSubmissionData sc vc).type = "coworking-spaces" := by
  refine ⟨?_, rfl, ?_, rfl, rfl⟩
  · show ((vb.equipment.filter equipmentComplete).map fun eq =>
        ({ labName := eq.labName, equipmentName := eq.equipmentName,
           capacityAndMake := eq.capacityAndMake } : Equipment)) =
      vb.equipment.filter equipmentComplete
    have hid : (fun eq : Equipment =>
        ({ labName := eq.labName, equipmentName := eq.equipmentName,
           capacityAndMake := eq.capacityAndMake } : Equipment)) = id := by
      funext e
      cases e
      rfl
    rw [hid, List.map_id]
  · show ((vr.areaDetails.filter areaComplete).map fun a =>
        ({ area := a.area, type := a.type, furnishing := a.furnishing,
           customisation := a.customisation } : AreaDetail)) =
      vr.areaDetails.filter areaComplete
    have hid : (fun a : AreaDetail =>
        ({ area := a.area, type := a.type, furnishing := a.furnishing,
           customisation := a.customisation } : AreaDetail)) = id := by
      funext a
      cases a
      rfl
    rw [hid, List.map_id]

/-- C8: when the submission adapter rejects, the handler sets the generic root
error "Failed to submit form. Please try again." and performs no reset — the
returned state is exactly the state at the moment of submission; reset happens
only on success — for both the BioAlliedLabs and CoworkingSpaces forms. -/
theorem adapter_rejection_sets_root_error
    (sb : BioLocalState) (vb : BioFormValues)
    (sc : CoworkingLocalState) (vc : CoworkingFormValues)
    (hbImg : sb.images ≠ [])
    (hbEq : vb.equipment.filter equipmentComplete ≠ [])
    (hbPlans : vb.selectedRentalPlans ≠ [])
    (hbRent : bioRentValidation vb = true)
    (hcImg : sc.images ≠ [])
    (hcPlans : vc.selectedRentalPlans ≠ [])
    (hcRent : coworkingRentValidation vc = true)
    (hcTotal : 0 < vc.totalSeats)
    (hcSeats : vc.availableSeats ≤ vc.totalSeats) :
    bioHandleFormSubmit false sb vb =
      .submitFailed (bioSubmissionData sb vb)
        (.rootError "Failed to submit form. Please try again.") sb ∧
    coworkingHandleFormSubmit false sc vc =
      .submitFailed (coworkingSubmissionData sc vc)
        (.rootError "Failed to submit form. Please try again.") sc ∧
    bioHandleFormSubmit true sb vb =
      .submitted (bioSubmissionData sb vb) { images := [], equipment := [emptyEquipment] } ∧
    coworkingHandleFormSubmit true sc vc =
      .submitted (coworkingSubmissionData sc vc) { images := [] } := by
  have h1 : ¬ sb.images.length = 0 := by
    simpa [List.length_eq_zero] using hbImg
  have h2 : ¬ (vb.equipment.filter equipmentComplete).length = 0 := by
    simpa [List.length_eq_zero] using hbEq
  have h3 : ¬ vb.selectedRentalPlans.length = 0 := by
    simpa [List.length_eq_zero] using hbPlans
  have h4 : ¬ sc.images.length = 0 := by
    simpa [List.length_eq_zero] using hcImg
  have h5 : ¬ vc.selectedRentalPlans.length = 0 := by
    simpa [List.length_eq_zero] using hcPlans
  have h6 : ¬ vc.totalSeats ≤ 0 := by omega
  have h7 : ¬ vc.availableSeats > vc.totalSeats := by omega
  refine ⟨?_, ?_, ?_, ?_⟩
  · simp [bioHandleFormSubmit, h1, h2, h3, hbRent]
  · simp [coworkingHandleFormSubmit, h4, h5, h6, h7, hcRent]
  · simp [bioHandleFormSubmit, h1, h2, h3, hbRent]
  · simp [coworkingHandleFormSubmit, h4, h5, h6, h7, hcRent]

/-- C8 witness: on concrete valid drafts, an adapter rejection yields the
generic root error with unchanged state, and an adapter success yields the
reset state. -/
theorem adapter_rejection_sets_root_error_witness :
    bioHandleFormSubmit false sampleBioState sampleBioValues =
      .submitFailed (bioSubmissionData sampleBioState sampleBioValues)
        (.rootError "Failed to submit form. Please try again.") sampleBioState ∧
    coworkingHandleFormSubmit false sampleCoworkingState sampleCoworkingValues =
      .submitFailed (coworkingSubmissionData sampleCoworkingState sampleCoworkingValues)
        (.rootError "Failed to submit form. Please try again.") sampleCoworkingState ∧
    bioHandleFormSubmit true sampleBioState sampleBioValues =
      .submitted (bioSubmissionData sampleBioState sampleBioValues)
        { images := [], equipment := [emptyEquipment] } ∧
    coworkingHandleFormSubmit true sampleCoworkingState sampleCoworkingValues =
      .submitted (coworkingSubmissionData sampleCoworkingState sampleCoworkingValues)
        { images := [] } := by
  exact adapter_rejection_sets_root_error sampleBioState sampleBioValues
    sampleCoworkingState sampleCoworkingValues
    (by decide) (by decide) (by decide) (by decide) (by decide) (by decide) (by decide)
    (by decide) (by decide)

/-- C9: the post-auth redirect is a deterministic function of the `from`
query parameter and the user's role: a non-empty `from` wins; otherwise
userType "startup" goes to /startup/dashboard and any other userType to
/service-provider/dashboard; an unauthenticated session triggers no
redirect. -/
theorem post_auth_redirect_target (u : SessionUser) (fromP : String) (user : Option SessionUser) :
    (fromP ≠ "" → signInRedirect .authenticated (some u) fromP = some fromP) ∧
    (fromP = "" → u.userType = "startup" →
      signInRedirect .authenticated (some u) fromP = some "/startup/dashboard") ∧
    (fromP = "" → u.userType ≠ "startup" →
      signInRedirect .authenticated (some u) fromP = some "/service-provider/dashboard") ∧
    signInRedirect .unauthenticated user fromP = none := by
  refine ⟨?_, ?_, ?_, rfl⟩
  · intro h
    simp [signInRedirect, h]
  · intro h hu
    simp [signInRedirect, h, hu]
  · intro h hu
    simp [signInRedirect, h, hu]

/-- C9 witness: with an empty `from` parameter a startup user is sent to the
startup dashboard, and an unauthenticated session is not redirected. -/
theorem post_auth_redirect_target_witness :
    signInRedirect .authenticated (some { userType := "startup" }) "" =
      some "/startup/dashboard" ∧
    signInRedirect .unauthenticated none "" = none := by
  obtain ⟨_, h2, _, h4⟩ := post_auth_redirect_target { userType := "startup" } "" none
  exact ⟨h2 rfl rfl, h4⟩

/-- C10: for an out-of-range index (negative or ≥ the list length),
`removeEquipment` and `removeAreaDetail` leave both the local list and the
schema-bound form array completely unchanged. -/
theorem remove_out_of_range_noop
    (sb : BioLocalState) (fe : List Equipment) (index : Int)
    (sr : RawLocalState) (fa : List AreaDetail) (index2 : Int)
    (h1 : index < 0 ∨ (sb.equipment.length : Int) ≤ index)
    (h2 : index < 0 ∨ (fe.length : Int) ≤ index)
    (h3 : index2 < 0 ∨ (sr.areaDetails.length : Int) ≤ index2)
    (h4 : index2 < 0 ∨ (fa.length : Int) ≤ index2) :
    removeEquipment index sb fe = (sb, fe) ∧
    removeAreaDetail index2 sr fa = (sr, fa) := by
  constructor
  · cases sb with
    | mk images equipment =>
      simp only [removeEquipment, removeAtIndex_out_of_range _ _ h1,
        removeAtIndex_out_of_range _ _ h2]
  · cases sr with
    | mk images areaDetails =>
      simp only [removeAreaDetail, removeAtIndex_out_of_range _ _ h3,
        removeAtIndex_out_of_range _ _ h4]

/-- C10 witness: removing index −1 from a one-row equipment list and index 5
from a one-row area list changes nothing. -/
theorem remove_out_of_range_noop_witness :
    removeEquipment (-1) sampleBioState [sampleEquipmentRow] =
      (sampleBioState, [sampleEquipmentRow]) ∧
    removeAreaDetail 5 sampleRawState [sampleAreaRow] =
      (sampleRawState, [sampleAreaRow]) := by
  exact remove_out_of_range_noop sampleBioState [sampleEquipmentRow] (-1)
    sampleRawState [sampleAreaRow] 5
    (by decide) (by decide) (by decide) (by decide)

end Cumma
